import Mathlib

/-!
Shallow embedding of the storage subsystem of the Captioner backend
(file app/storage.py): the Dropbox-backed remote storage client, the
local filesystem backend and the storage backend selector.

HTTP interactions are modelled by passing the responses the remote
provider would send, already parsed, as explicit arguments (a script).
Each remote operation returns the list of outbound HTTP calls it made,
the new value of the cached token field and its outcome, where raising
DropboxStorageError is modelled as an Except.error value.
-/

namespace Captioner

/-- Python truthiness of an optional string, as used by
if not self.token and by all([...]): None and the empty string are
falsy, every other string is truthy. -/
def truthyStr : Option String → Bool
  | none => false
  | some s => !s.isEmpty

/-- OAuth credentials read from the environment in the constructor of
DropboxStorage (DROPBOX_APP_KEY, DROPBOX_APP_SECRET,
DROPBOX_REFRESH_TOKEN); a variable that is unset is none. -/
structure Creds where
  app_key : Option String
  app_secret : Option String
  refresh_token : Option String
  deriving Repr, DecidableEq

/-- Embeds all([self.app_key, self.app_secret, self.refresh_token]). -/
def credsSet (c : Creds) : Bool :=
  truthyStr c.app_key && truthyStr c.app_secret && truthyStr c.refresh_token

/-- Errors raised as DropboxStorageError.  Each constructor records the
data the corresponding message string is built from, so status code and
response body are carried verbatim. -/
inductive DbxError
  | credsNotSet
  | requestFailed (msg : String)
  | apiError (status : Nat) (body : String)
  | tokenRequestFailed (msg : String)
  | tokenApiError (status : Nat) (body : String)
  | noAccessToken
  deriving Repr, DecidableEq

/-- Outbound HTTP POST calls, recorded with the request data that the
code puts in the body or argument header: the continuation call body
holds exactly the cursor, the download argument holds exactly the
target path. -/
inductive HttpCall
  | oauthToken
  | listFolder (path : String) (recursive : Bool)
  | listFolderContinue (cursor : String)
  | download (path : String)
  | propertiesGet (path : String)
  | propertiesOverwrite (path : String) (caption : String)
  | propertiesRemove (path : String)
  deriving Repr, DecidableEq

/-- Response of the token-exchange endpoint as used by _refresh_token: a
transport-level failure, or an HTTP status with body text and the parsed
access_token field of the JSON body (none when the field is absent). -/
inductive TokenResult
  | netError (msg : String)
  | ok (status : Nat) (body : String) (access_token : Option String)
  deriving Repr, DecidableEq

/-- _SUCCESS_CODE of DropboxStorage. -/
def SUCCESS_CODE : Nat := 200

/-- _NOT_FOUND_CODE of DropboxStorage. -/
def NOT_FOUND_CODE : Nat := 409

/-- _TEMPLATE_NAME of DropboxStorage. -/
def TEMPLATE_NAME : String := "CaptionerPhotoTags"

/-- _FIELD_NAME of DropboxStorage. -/
def FIELD_NAME : String := "caption"

/-- Embeds DropboxStorage._refresh_token.  Takes the current value of
self.token and returns its new value together with the outcome: the code
assigns token_json.get("access_token") to self.token before checking it
for truthiness, and leaves the old value untouched on a transport
failure or a non-success status. -/
def _refresh_token (old : Option String) (tr : TokenResult) :
    Option String × Except DbxError Unit :=
  match tr with
  | .netError msg => (old, .error (.tokenRequestFailed msg))
  | .ok status body tok =>
    if status ≠ SUCCESS_CODE then (old, .error (.tokenApiError status body))
    else if truthyStr tok then (tok, .ok ()) else (tok, .error .noAccessToken)

/-- The guard every one of the five remote operations begins with:
if not self.token, first require all three credentials (raising
DropboxStorageError before any network call otherwise) and then call
self._refresh_token().  Returns the HTTP calls made, the new value of
self.token and the outcome. -/
def ensureToken (token : Option String) (c : Creds) (tr : TokenResult) :
    List HttpCall × Option String × Except DbxError Unit :=
  if truthyStr token then ([], token, .ok ())
  else if credsSet c then
    let r := _refresh_token token tr
    ([.oauthToken], r.1, r.2)
  else ([], token, .error .credsNotSet)

/-- Result of one remote operation: the outbound HTTP calls in order,
the value of self.token afterwards, and the returned value or the
raised error. -/
structure OpResult (α : Type) where
  calls : List HttpCall
  token : Option String
  outcome : Except DbxError α
  deriving Repr

/-- One field object inside a property group of the properties/get
response; name and value are the JSON entries, none when absent. -/
structure PropField where
  name : Option String
  value : Option String
  deriving Repr, DecidableEq

/-- One property group of the properties/get response. -/
structure PropGroup where
  template_id : Option String
  template_name : Option String
  fields : List PropField
  deriving Repr, DecidableEq

/-- Response of the properties/get endpoint: a transport failure, or an
HTTP status with body text and the parsed property_groups list
(result.get("property_groups", []) defaults to the empty list). -/
inductive PropsGetResult
  | netError (msg : String)
  | ok (status : Nat) (body : String) (property_groups : List PropGroup)
  deriving Repr, DecidableEq

/-- The inner loop of get_caption over the fields of a matched group:
some v means a field whose name equals the caption field name was found
and its value entry is v (itself optional, field.get("value")). -/
def findFieldValue : List PropField → Option (Option String)
  | [] => none
  | f :: fs =>
    if f.name == some FIELD_NAME then some f.value else findFieldValue fs

/-- The scan of get_caption over the returned property groups: a group
matching the caption template by template_id or by template_name is
searched for the caption field; the first such field ends the scan with
its value, while a matching group without the field does not end the
scan. -/
def findCaption : List PropGroup → Option String
  | [] => none
  | g :: gs =>
    if g.template_id == some TEMPLATE_NAME
        || g.template_name == some TEMPLATE_NAME then
      match findFieldValue g.fields with
      | some v => v
      | none => findCaption gs
    else findCaption gs

/-- Embeds DropboxStorage.get_caption, with the response of the
properties/get endpoint passed explicitly. -/
def get_caption (token : Option String) (c : Creds) (tr : TokenResult)
    (resp : PropsGetResult) (object_key : String) : OpResult (Option String) :=
  match ensureToken token c tr with
  | (log, tok, .error e) => ⟨log, tok, .error e⟩
  | (log, tok, .ok ()) =>
    let log := log ++ [HttpCall.propertiesGet ("/" ++ object_key)]
    match resp with
    | .netError msg => ⟨log, tok, .error (.requestFailed msg)⟩
    | .ok status body groups =>
      if status ≠ SUCCESS_CODE then
        if status = NOT_FOUND_CODE then ⟨log, tok, .ok none⟩
        else ⟨log, tok, .error (.apiError status body)⟩
      else ⟨log, tok, .ok (findCaption groups)⟩

/-- Response of the properties/overwrite and properties/remove
endpoints: only status and body text are consulted by the code. -/
inductive SimpleResult
  | netError (msg : String)
  | ok (status : Nat) (body : String)
  deriving Repr, DecidableEq

/-- Embeds DropboxStorage.set_caption; the request body contains one
property group for the caption template with exactly one field, recorded
in the propertiesOverwrite call. -/
def set_caption (token : Option String) (c : Creds) (tr : TokenResult)
    (resp : SimpleResult) (object_key : String) (caption : String) :
    OpResult Unit :=
  match ensureToken token c tr with
  | (log, tok, .error e) => ⟨log, tok, .error e⟩
  | (log, tok, .ok ()) =>
    let log := log ++ [HttpCall.propertiesOverwrite ("/" ++ object_key) caption]
    match resp with
    | .netError msg => ⟨log, tok, .error (.requestFailed msg)⟩
    | .ok status body =>
      if status ≠ SUCCESS_CODE then ⟨log, tok, .error (.apiError status body)⟩
      else ⟨log, tok, .ok ()⟩

/-- Embeds DropboxStorage.delete_caption: a _NOT_FOUND_CODE status means
the field is already missing and is treated as success. -/
def delete_caption (token : Option String) (c : Creds) (tr : TokenResult)
    (resp : SimpleResult) (object_key : String) : OpResult Unit :=
  match ensureToken token c tr with
  | (log, tok, .error e) => ⟨log, tok, .error e⟩
  | (log, tok, .ok ()) =>
    let log := log ++ [HttpCall.propertiesRemove ("/" ++ object_key)]
    match resp with
    | .netError msg => ⟨log, tok, .error (.requestFailed msg)⟩
    | .ok status body =>
      if status ≠ SUCCESS_CODE then
        if status = NOT_FOUND_CODE then ⟨log, tok, .ok ()⟩
        else ⟨log, tok, .error (.apiError status body)⟩
      else ⟨log, tok, .ok ()⟩

/-- One entry of a list_folder response page; tag is the ".tag" JSON
field and path_display the "path_display" field, none when absent. -/
structure DbxEntry where
  tag : Option String
  path_display : Option String
  deriving Repr, DecidableEq

/-- One parsed page of the list_folder or list_folder/continue
response: the entries list (result.get("entries", []) defaults to the
empty list), the has_more flag (result.get("has_more"), falsy default)
and the continuation cursor (result["cursor"], read only when has_more
is set; the provider sends it together with has_more). -/
structure ListFolderPage where
  entries : List DbxEntry
  has_more : Bool
  cursor : String
  deriving Repr, DecidableEq

/-- Response of the list_folder and list_folder/continue endpoints. -/
inductive PageResult
  | netError (msg : String)
  | ok (status : Nat) (body : String) (page : ListFolderPage)
  deriving Repr, DecidableEq

/-- The characters of s case-folded one by one; re.IGNORECASE folds per
character, and every character the pattern mentions is ASCII. -/
def lowerData (s : String) : List Char := s.data.map Char.toLower

/-- One alternation branch of the image pattern, read backwards, tested
at an ending position of the subject, the position being represented by
the reversed characters that precede it. -/
def branchMatchesEnd (r : List Char) : Bool :=
  List.isPrefixOf ['g', 'p', 'j', '.'] r
    || List.isPrefixOf ['g', 'e', 'p', 'j', '.'] r
    || List.isPrefixOf ['g', 'n', 'p', '.'] r

/-- The second ending position the dollar anchor can match at: just
before a single trailing newline.  On the reversed character sequence
this drops one leading newline; without a trailing newline the position
coincides with the end of the subject. -/
def stripLeadNewline (r : List Char) : List Char :=
  match r with
  | c :: rest => if c = '\n' then rest else c :: rest
  | [] => []

/-- Embeds image_pattern.search for the compiled pattern matching a dot
followed by jpg, jpeg or png anchored by a dollar, case-insensitively.
Without re.MULTILINE the dollar matches at the end of the subject and
also just before one trailing newline, so the search succeeds when one
branch of the alternation, read backwards, is a prefix of the reversed
case-folded character sequence at either ending position. -/
def image_pattern_search (s : String) : Bool :=
  let r := (lowerData s).reverse
  branchMatchesEnd r || branchMatchesEnd (stripLeadNewline r)

/-- Embeds the Python lstrip("/"): removes every leading slash. -/
def lstripSlash (s : String) : String := ⟨s.data.dropWhile (· = '/')⟩

/-- The entry filter of the list comprehension in list_photos: entries
whose ".tag" equals "file" and whose path_display (defaulting to the
empty string when absent) matches the image pattern. -/
def entryMatches (e : DbxEntry) : Bool :=
  e.tag == some "file" && image_pattern_search (e.path_display.getD "")

/-- One page's contribution to the images accumulator: the list
comprehension of list_photos, filtering the entries and stripping
leading slashes from path_display.  An entry passing the filter matched
a nonempty pattern, so its path_display is present; the default value
is therefore never the one projected. -/
def filterEntries (entries : List DbxEntry) : List String :=
  (entries.filter entryMatches).map (fun e => lstripSlash (e.path_display.getD ""))

/-- The while result.get("has_more") loop of list_photos; script holds
the responses the continue endpoint returns, in order.  A provider that
never answers although more pages remain is modelled as a transport
failure, the branch no theorem below relies on. -/
def listLoop (script : List PageResult) (result : ListFolderPage)
    (images : List String) : List HttpCall × Except DbxError (List String) :=
  if result.has_more then
    match script with
    | [] =>
      ([HttpCall.listFolderContinue result.cursor],
        .error (.requestFailed "no response"))
    | .netError msg :: _ =>
      ([HttpCall.listFolderContinue result.cursor], .error (.requestFailed msg))
    | .ok status body page :: rest =>
      if status ≠ SUCCESS_CODE then
        ([HttpCall.listFolderContinue result.cursor],
          .error (.apiError status body))
      else
        let r := listLoop rest page (images ++ filterEntries page.entries)
        (HttpCall.listFolderContinue result.cursor :: r.1, r.2)
  else ([], .ok images)

/-- Embeds DropboxStorage.list_photos: the initial list_folder request
carries the configured base path with the recursive flag set, the first
script element answers it and the remaining elements answer the
continuation requests in order. -/
def list_photos (token : Option String) (c : Creds) (tr : TokenResult)
    (base_path : String) (script : List PageResult) : OpResult (List String) :=
  match ensureToken token c tr with
  | (log, tok, .error e) => ⟨log, tok, .error e⟩
  | (log, tok, .ok ()) =>
    let log := log ++ [HttpCall.listFolder base_path true]
    match script with
    | [] => ⟨log, tok, .error (.requestFailed "no response")⟩
    | .netError msg :: _ => ⟨log, tok, .error (.requestFailed msg)⟩
    | .ok status body page :: rest =>
      if status ≠ SUCCESS_CODE then ⟨log, tok, .error (.apiError status body)⟩
      else
        let r := listLoop rest page (filterEntries page.entries)
        ⟨log ++ r.1, tok, r.2⟩

/-- Response of the download endpoint: resp.text is consulted for error
messages and resp.content, the raw payload bytes, is the return value. -/
inductive DownloadResult
  | netError (msg : String)
  | ok (status : Nat) (body : String) (content : List UInt8)
  deriving Repr, DecidableEq

/-- Embeds DropboxStorage.get_photo: the Dropbox-API-Arg header names
the path obtained by re-rooting the identifier under the fixed /photos/
folder.  self.base_path is in scope in the source but never read by this
method, which the base_path argument mirrors. -/
def get_photo (token : Option String) (c : Creds) (tr : TokenResult)
    (resp : DownloadResult) (identifier : String) (base_path : String) :
    OpResult (List UInt8) :=
  match ensureToken token c tr with
  | (log, tok, .error e) => ⟨log, tok, .error e⟩
  | (log, tok, .ok ()) =>
    let log := log ++ [HttpCall.download ("/photos/" ++ identifier)]
    match resp with
    | .netError msg => ⟨log, tok, .error (.requestFailed msg)⟩
    | .ok status body content =>
      if status ≠ SUCCESS_CODE then ⟨log, tok, .error (.apiError status body)⟩
      else ⟨log, tok, .ok content⟩

/-- One directory entry as seen by Path.iterdir; isFile is the value of
Path.is_file() for it, true exactly for regular files. -/
structure DirEntry where
  name : String
  isFile : Bool
  deriving Repr, DecidableEq

namespace FileSystemStorage

/-- Embeds FileSystemStorage.list_photos.  The base directory is none
when it does not exist, in which case iterdir raises FileNotFoundError
and the handler returns the empty list; otherwise it is the list of the
direct children in iteration order, and the names of those that are
regular files are returned. -/
def list_photos (dir : Option (List DirEntry)) : List String :=
  match dir with
  | none => []
  | some es => (es.filter (fun e => e.isFile)).map (fun e => e.name)

end FileSystemStorage

/-- The three backend classes the factory can construct. -/
inductive Backend
  | filesystem
  | dropbox
  | s3
  deriving Repr, DecidableEq

/-- Embeds str.lower: the characters lowered one by one, which matches
Python on the ASCII backend names the selector compares against. -/
def pyLower (s : String) : String := ⟨s.data.map Char.toLower⟩

/-- Embeds get_storage_backend; env is the value of the STORAGE_BACKEND
environment variable, none when unset, so that os.getenv substitutes
the default "dropbox".  Raising ValueError is modelled as Except.error
carrying the message. -/
def get_storage_backend (env : Option String) : Except String Backend :=
  let backend := pyLower (env.getD "dropbox")
  if backend = "filesystem" then .ok .filesystem
  else if backend = "s3" then .ok .s3
  else if backend = "dropbox" ∨ backend = "" then .ok .dropbox
  else .error ("Unknown storage backend: " ++ backend)

/-- Spec-side image test, following the words of the original claim:
the display path ends in .jpg, .jpeg or .png, case-insensitively.  The
code accepts more: its dollar anchor also tolerates one trailing
newline, which is what refutes the claim as stated. -/
def specIsImagePath (s : String) : Bool :=
  List.isSuffixOf ['.', 'j', 'p', 'g'] (lowerData s)
    || List.isSuffixOf ['.', 'j', 'p', 'e', 'g'] (lowerData s)
    || List.isSuffixOf ['.', 'p', 'n', 'g'] (lowerData s)

/-- Spec-side image test, following the words of the amended claim: the
display path ends in .jpg, .jpeg or .png, or in one of these followed
by a single newline character, case-insensitively. -/
def specIsImagePathNl (s : String) : Bool :=
  specIsImagePath s
    || List.isSuffixOf ['.', 'j', 'p', 'g', '\n'] (lowerData s)
    || List.isSuffixOf ['.', 'j', 'p', 'e', 'g', '\n'] (lowerData s)
    || List.isSuffixOf ['.', 'p', 'n', 'g', '\n'] (lowerData s)

/-- Spec-side listing of one page, following the words of the amended
claim: exactly the entries tagged as files whose display path has an
image extension, at most one trailing newline tolerated, each with
leading slashes stripped, in provider order. -/
def specPageListing (entries : List DbxEntry) : List String :=
  (entries.filter
      (fun e => e.tag == some "file" && specIsImagePathNl (e.path_display.getD ""))).map
    (fun e => lstripSlash (e.path_display.getD ""))

/-- A failing page response: a transport failure or a non-success
HTTP status. -/
def pageFailure : PageResult → Bool
  | .netError _ => true
  | .ok status _ _ => status != SUCCESS_CODE

/-- The error a failing page response aborts the listing with. -/
def pageError : PageResult → DbxError
  | .netError msg => .requestFailed msg
  | .ok status body _ => .apiError status body

theorem ensureToken_cached (token : Option String) (c : Creds)
    (tr : TokenResult) (h : truthyStr token = true) :
    ensureToken token c tr = ([], token, .ok ()) := by
  simp [ensureToken, h]

theorem listLoop_abort (good : List (String × ListFolderPage))
    (hg : ∀ pr ∈ good, pr.2.has_more = true)
    (start : ListFolderPage) (hs : start.has_more = true)
    (bad : PageResult) (hb : pageFailure bad = true)
    (rest : List PageResult) (images : List String) :
    (listLoop (good.map (fun pr => PageResult.ok SUCCESS_CODE pr.1 pr.2)
        ++ bad :: rest) start images).2 = .error (pageError bad) := by
  induction good generalizing start images with
  | nil =>
    cases bad with
    | netError msg => simp [listLoop, hs, pageError]
    | ok status body page =>
      have hne : status ≠ SUCCESS_CODE := by
        simpa [pageFailure] using hb
      simp [listLoop, hs, hne, pageError]
  | cons hd tl ih =>
    have hhd : hd.2.has_more = true := hg hd (List.mem_cons_self hd tl)
    have htl : ∀ pr ∈ tl, pr.2.has_more = true := by
      intro pr hpr; exact hg pr (List.mem_cons_of_mem hd hpr)
    simp only [List.map_cons, List.cons_append, listLoop, hs, if_true]
    simp only [ne_eq, not_true_eq_false, reduceIte]
    exact ih htl hd.2 hhd _

theorem image_pattern_search_eq_spec (s : String) :
    image_pattern_search s = specIsImagePathNl s := by
  have key : ∀ r : List Char,
      (branchMatchesEnd r || branchMatchesEnd (stripLeadNewline r))
        = (branchMatchesEnd r
            || (List.isPrefixOf ['\n', 'g', 'p', 'j', '.'] r
              || List.isPrefixOf ['\n', 'g', 'e', 'p', 'j', '.'] r
              || List.isPrefixOf ['\n', 'g', 'n', 'p', '.'] r)) := by
    intro r
    cases r with
    | nil => rfl
    | cons c rest =>
      by_cases hc : c = '\n'
      · subst hc
        simp [stripLeadNewline, branchMatchesEnd, List.isPrefixOf]
      · simp [stripLeadNewline, branchMatchesEnd, List.isPrefixOf, hc,
          Ne.symm hc]
  unfold image_pattern_search specIsImagePathNl specIsImagePath
  simp only [List.isSuffixOf]
  rw [key ((lowerData s).reverse)]
  simp [branchMatchesEnd, Bool.or_assoc]

theorem filterEntries_eq_spec (entries : List DbxEntry) :
    filterEntries entries = specPageListing entries := by
  have hp : ∀ e : DbxEntry, entryMatches e
      = (e.tag == some "file" && specIsImagePathNl (e.path_display.getD "")) := by
    intro e; unfold entryMatches; rw [image_pattern_search_eq_spec]
  unfold filterEntries specPageListing
  congr 1
  exact List.filter_congr (fun e _ => hp e)

/-- Claim C1 counterexample: the source filter is the regex search of a
dot-extension alternation anchored by a dollar, and without
re.MULTILINE the dollar also matches just before one trailing newline,
so a file entry whose display path is /x.jpg followed by a newline
passes the filter although the path does not end in .jpg, .jpeg or
.png: list_photos returns its identifier, which the claim says can
never appear. -/
theorem list_photos_returns_trailing_newline_path :
    list_photos (some "T") ⟨none, none, none⟩ (.netError "unused") ""
        [PageResult.ok 200 "" ⟨[⟨some "file", some "/x.jpg\n"⟩], false, "c"⟩]
      = ⟨[HttpCall.listFolder "" true], some "T", .ok ["x.jpg\n"]⟩
    ∧ specIsImagePath "x.jpg\n" = false := by
  constructor <;> rfl

/-- Claim C1 as amended: for every provider response, list_photos
returns exactly the entries tagged as files whose display path ends in
.jpg, .jpeg or .png, or in one of these followed by a single newline
character (the dollar anchor of the filter regex also matches just
before one trailing newline), case-insensitively, each with its leading
slashes stripped, in the provider entry order with no client-side sort;
directory entries and other file types never appear.  The first
conjunct identifies the code filter with the amended spec-side filter
for every page of entries; the second computes a whole single-page call
against the spec-side listing, whose shape (filter then map) preserves
provider order. -/
theorem list_photos_filters_image_files :
    (∀ entries, filterEntries entries = specPageListing entries)
    ∧ ∀ (token : Option String) (c : Creds) (tr : TokenResult)
        (base_path body cursor : String) (entries : List DbxEntry),
        truthyStr token = true →
        list_photos token c tr base_path
            [PageResult.ok 200 body ⟨entries, false, cursor⟩]
          = ⟨[HttpCall.listFolder base_path true], token,
              .ok (specPageListing entries)⟩ := by
  constructor
  · exact filterEntries_eq_spec
  · intro token c tr base_path body cursor entries h
    rw [list_photos, ensureToken_cached token c tr h,
      ← filterEntries_eq_spec entries]
    rfl

/-- Witness for the amended C1: a concrete page holding an upper-case
image, a directory, a non-image file, an image in a subfolder and an
image path with one trailing newline. -/
theorem list_photos_filters_image_files_witness :
    list_photos (some "T") ⟨none, none, none⟩ (.netError "unused") "/root"
        [PageResult.ok 200 "" ⟨[⟨some "file", some "/a.JPG"⟩,
          ⟨some "folder", some "/d"⟩, ⟨some "file", some "/b.txt"⟩,
          ⟨some "file", some "/sub/c.png"⟩, ⟨some "file", some "/n.jpg\n"⟩],
          false, "c"⟩]
      = ⟨[HttpCall.listFolder "/root" true], some "T",
          .ok ["a.JPG", "sub/c.png", "n.jpg\n"]⟩ := by
  rw [list_photos_filters_image_files.2 (some "T") ⟨none, none, none⟩
    (.netError "unused") "/root" "" "c" [⟨some "file", some "/a.JPG"⟩,
    ⟨some "folder", some "/d"⟩, ⟨some "file", some "/b.txt"⟩,
    ⟨some "file", some "/sub/c.png"⟩, ⟨some "file", some "/n.jpg\n"⟩]
    (by decide)]
  rfl

/-- Claim C2: for a two-page listing whose first page has has_more set
with cursor C and whose second page has has_more clear, list_photos
returns the filtered entries of page one followed by those of page two,
the continuation request body holds exactly the cursor C, and the calls
happen strictly in sequence: first the initial listing request, then
the single continuation request. -/
theorem list_photos_pagination_roundtrip
    (token : Option String) (c : Creds) (tr : TokenResult)
    (base_path body1 body2 cur cur2 : String)
    (entries1 entries2 : List DbxEntry)
    (h : truthyStr token = true) :
    list_photos token c tr base_path
        [PageResult.ok 200 body1 ⟨entries1, true, cur⟩,
         PageResult.ok 200 body2 ⟨entries2, false, cur2⟩]
      = ⟨[HttpCall.listFolder base_path true, HttpCall.listFolderContinue cur],
          token, .ok (filterEntries entries1 ++ filterEntries entries2)⟩ := by
  rw [list_photos, ensureToken_cached token c tr h]; rfl

/-- Witness for C2: a concrete two-page listing. -/
theorem list_photos_pagination_roundtrip_witness :
    list_photos (some "T") ⟨none, none, none⟩ (.netError "unused") ""
        [PageResult.ok 200 "" ⟨[⟨some "file", some "/a.jpg"⟩], true, "CUR"⟩,
         PageResult.ok 200 "" ⟨[⟨some "file", some "/b.png"⟩], false, "z"⟩]
      = ⟨[HttpCall.listFolder "" true, HttpCall.listFolderContinue "CUR"],
          some "T", .ok ["a.jpg", "b.png"]⟩ := by
  rw [list_photos_pagination_roundtrip (some "T") ⟨none, none, none⟩
    (.netError "unused") "" "" "" "CUR" "z" [⟨some "file", some "/a.jpg"⟩]
    [⟨some "file", some "/b.png"⟩] (by decide)]
  rfl

/-- Claim C3: if any page of a paginated listing, initial or
continuation, answers with a non-success status or a transport failure,
list_photos fails with the error built from that response (the status
and body, or the wrapped transport cause) and returns no partial
results: the outcome is an error, so the entries filtered from the
earlier pages, all of which succeeded with has_more set, are discarded.
The script is any number of successful pages followed by the failing
response. -/
theorem list_photos_aborts_all_or_nothing
    (token : Option String) (c : Creds) (tr : TokenResult)
    (base_path : String) (good : List (String × ListFolderPage))
    (bad : PageResult) (rest : List PageResult)
    (h : truthyStr token = true)
    (hg : ∀ pr ∈ good, pr.2.has_more = true)
    (hb : pageFailure bad = true) :
    (list_photos token c tr base_path
        (good.map (fun pr => PageResult.ok SUCCESS_CODE pr.1 pr.2)
          ++ bad :: rest)).outcome
      = .error (pageError bad) := by
  rw [list_photos, ensureToken_cached token c tr h]
  cases good with
  | nil =>
    cases bad with
    | netError msg => simp [pageError]
    | ok status body page =>
      have hne : status ≠ SUCCESS_CODE := by
        simpa [pageFailure] using hb
      simp [hne, pageError]
  | cons hd tl =>
    have hhd : hd.2.has_more = true := hg hd (List.mem_cons_self hd tl)
    have htl : ∀ pr ∈ tl, pr.2.has_more = true := by
      intro pr hpr; exact hg pr (List.mem_cons_of_mem hd hpr)
    simp only [List.map_cons, List.cons_append, ne_eq, not_true_eq_false,
      reduceIte]
    exact listLoop_abort tl htl hd.2 hhd bad hb rest _

/-- Witness for C3: one successful page with has_more set, then a 500;
the image filtered from page one is not returned. -/
theorem list_photos_aborts_all_or_nothing_witness :
    (list_photos (some "T") ⟨none, none, none⟩ (.netError "unused") ""
        ([("", ⟨[⟨some "file", some "/a.jpg"⟩], true, "CUR"⟩)].map
            (fun pr => PageResult.ok SUCCESS_CODE pr.1 pr.2)
          ++ PageResult.ok 500 "boom" ⟨[], false, ""⟩ :: [])).outcome
      = .error (.apiError 500 "boom") := by
  exact list_photos_aborts_all_or_nothing (some "T") ⟨none, none, none⟩
    (.netError "unused") "" [("", ⟨[⟨some "file", some "/a.jpg"⟩], true, "CUR"⟩)]
    (PageResult.ok 500 "boom" ⟨[], false, ""⟩) [] (by decide)
    (by intro pr hpr; simp at hpr; simp [hpr]) (by decide)

/-- Claim C4 counterexample: the claim calls the selector
whitespace-trimmed, but the code only lowercases the configured value,
so a value that is the known name surrounded by whitespace is rejected
as unknown instead of selecting the filesystem backend. -/
theorem get_storage_backend_not_whitespace_trimmed :
    get_storage_backend (some " filesystem")
      = .error "Unknown storage backend:  filesystem" := by rfl

/-- Claim C4 as amended: the backend selector is deterministic (a pure
function of the lowercased value, first conjunct) and case-insensitive,
but not whitespace-trimmed: "filesystem" selects the filesystem
backend, "s3" the stub, "dropbox", the empty string and an unset
variable the Dropbox backend, and any other value, surrounding
whitespace included, yields a configuration error naming the lowercased
value and constructs no backend. -/
theorem get_storage_backend_selection :
    (∀ s t : String, pyLower s = pyLower t →
        get_storage_backend (some s) = get_storage_backend (some t))
    ∧ (∀ s : String, pyLower s = "filesystem" →
        get_storage_backend (some s) = .ok .filesystem)
    ∧ (∀ s : String, pyLower s = "s3" →
        get_storage_backend (some s) = .ok .s3)
    ∧ (∀ s : String, pyLower s = "dropbox" ∨ pyLower s = "" →
        get_storage_backend (some s) = .ok .dropbox)
    ∧ get_storage_backend none = .ok .dropbox
    ∧ (∀ s : String, pyLower s ≠ "filesystem" → pyLower s ≠ "s3" →
        pyLower s ≠ "dropbox" → pyLower s ≠ "" →
        get_storage_backend (some s)
          = .error ("Unknown storage backend: " ++ pyLower s)) := by
  refine ⟨?_, ?_, ?_, ?_, by rfl, ?_⟩
  · intro s t h
    simp only [get_storage_backend, Option.getD_some]
    rw [h]
  · intro s h; simp [get_storage_backend, h]
  · intro s h; simp [get_storage_backend, h]
  · intro s h
    rcases h with h | h <;> simp [get_storage_backend, h]
  · intro s h1 h2 h3 h4
    simp [get_storage_backend, h1, h2, h3, h4]

/-- Witness for the amended C4: a mixed-case known value selects the
filesystem backend. -/
theorem get_storage_backend_selection_witness :
    get_storage_backend (some "FileSystem") = .ok .filesystem :=
  get_storage_backend_selection.2.1 "FileSystem" (by decide)

/-- Claim C5: get_caption scans the returned property groups for the
caption template, matched by the template id field or the template name
field, then scans the fields of a matched group for the caption field
name, returning that field's value when found and none otherwise; a 409
status yields none rather than an error, any other non-success status
raises an error carrying status and body, and a transport failure a
wrapped request error. -/
theorem get_caption_scan_and_status_handling
    (token : Option String) (c : Creds) (tr : TokenResult) (key : String)
    (h : truthyStr token = true) :
    (∀ msg, (get_caption token c tr (.netError msg) key).outcome
        = .error (.requestFailed msg))
    ∧ (∀ body groups,
        (get_caption token c tr (.ok 409 body groups) key).outcome = .ok none)
    ∧ (∀ status body groups, status ≠ 200 → status ≠ 409 →
        (get_caption token c tr (.ok status body groups) key).outcome
          = .error (.apiError status body))
    ∧ (∀ body groups,
        (get_caption token c tr (.ok 200 body groups) key).outcome
          = .ok (findCaption groups))
    ∧ findCaption [] = none
    ∧ (∀ (g : PropGroup) gs, g.template_id ≠ some TEMPLATE_NAME →
        g.template_name ≠ some TEMPLATE_NAME →
        findCaption (g :: gs) = findCaption gs)
    ∧ (∀ (g : PropGroup) gs v,
        (g.template_id = some TEMPLATE_NAME
          ∨ g.template_name = some TEMPLATE_NAME) →
        findFieldValue g.fields = some v → findCaption (g :: gs) = v)
    ∧ (∀ (g : PropGroup) gs,
        findFieldValue g.fields = none → findCaption (g :: gs) = findCaption gs)
    ∧ findFieldValue [] = none
    ∧ (∀ (f : PropField) fs, f.name = some FIELD_NAME →
        findFieldValue (f :: fs) = some f.value)
    ∧ (∀ (f : PropField) fs, f.name ≠ some FIELD_NAME →
        findFieldValue (f :: fs) = findFieldValue fs) := by
  refine ⟨?_, ?_, ?_, ?_, rfl, ?_, ?_, ?_, rfl, ?_, ?_⟩
  · intro msg; rw [get_caption, ensureToken_cached token c tr h]
  · intro body groups; rw [get_caption, ensureToken_cached token c tr h]; rfl
  · intro status body groups h1 h2
    rw [get_caption, ensureToken_cached token c tr h]
    simp [h1, h2, SUCCESS_CODE, NOT_FOUND_CODE]
  · intro body groups; rw [get_caption, ensureToken_cached token c tr h]; rfl
  · intro g gs h1 h2; simp [findCaption, h1, h2]
  · intro g gs v hm hf
    rcases hm with hm | hm <;> simp [findCaption, hm, hf]
  · intro g gs hf
    by_cases hm : (g.template_id == some TEMPLATE_NAME
        || g.template_name == some TEMPLATE_NAME) = true
    · simp [findCaption, hm, hf]
    · simp [findCaption, hm]
  · intro f fs hn; simp [findFieldValue, hn]
  · intro f fs hn; simp [findFieldValue, hn]

/-- Witness for C5: a 409 response yields none, and a 200 response with
a matching group is scanned to its caption field. -/
theorem get_caption_scan_and_status_handling_witness :
    (get_caption (some "T") ⟨none, none, none⟩ (.netError "unused")
        (.ok 409 "conflict" []) "x.jpg").outcome = .ok none
    ∧ (get_caption (some "T") ⟨none, none, none⟩ (.netError "unused")
        (.ok 200 "" [⟨some "CaptionerPhotoTags", none,
          [⟨some "caption", some "hello"⟩]⟩]) "x.jpg").outcome
      = .ok (some "hello") :=
  ⟨(get_caption_scan_and_status_handling (some "T") ⟨none, none, none⟩
      (.netError "unused") "x.jpg" (by decide)).2.1 "conflict" [],
   ((get_caption_scan_and_status_handling (some "T") ⟨none, none, none⟩
      (.netError "unused") "x.jpg" (by decide)).2.2.2.1 ""
      [⟨some "CaptionerPhotoTags", none, [⟨some "caption", some "hello"⟩]⟩]).trans
    (by rfl)⟩

/-- Claim C6: delete_caption treats a 409 status as success and raises
an error carrying status and body for any other non-success status;
set_caption raises an error for every non-success status, with no
special case for 409. -/
theorem caption_write_delete_status_handling
    (token : Option String) (c : Creds) (tr : TokenResult)
    (key caption : String) (h : truthyStr token = true) :
    (∀ body, (delete_caption token c tr (.ok 409 body) key).outcome = .ok ())
    ∧ (∀ body, (delete_caption token c tr (.ok 200 body) key).outcome = .ok ())
    ∧ (∀ status body, status ≠ 200 → status ≠ 409 →
        (delete_caption token c tr (.ok status body) key).outcome
          = .error (.apiError status body))
    ∧ (∀ msg, (delete_caption token c tr (.netError msg) key).outcome
        = .error (.requestFailed msg))
    ∧ (∀ body, (set_caption token c tr (.ok 200 body) key caption).outcome
        = .ok ())
    ∧ (∀ status body, status ≠ 200 →
        (set_caption token c tr (.ok status body) key caption).outcome
          = .error (.apiError status body))
    ∧ (∀ msg, (set_caption token c tr (.netError msg) key caption).outcome
        = .error (.requestFailed msg)) := by
  refine ⟨?_, ?_, ?_, ?_, ?_, ?_, ?_⟩
  · intro body; rw [delete_caption, ensureToken_cached token c tr h]; rfl
  · intro body; rw [delete_caption, ensureToken_cached token c tr h]; rfl
  · intro status body h1 h2
    rw [delete_caption, ensureToken_cached token c tr h]
    simp [h1, h2, SUCCESS_CODE, NOT_FOUND_CODE]
  · intro msg; rw [delete_caption, ensureToken_cached token c tr h]
  · intro body; rw [set_caption, ensureToken_cached token c tr h]; rfl
  · intro status body h1
    rw [set_caption, ensureToken_cached token c tr h]
    simp [h1, SUCCESS_CODE]
  · intro msg; rw [set_caption, ensureToken_cached token c tr h]

/-- Witness for C6: at status 409 delete_caption succeeds while
set_caption fails with the status and body. -/
theorem caption_write_delete_status_handling_witness :
    (delete_caption (some "T") ⟨none, none, none⟩ (.netError "unused")
        (.ok 409 "conflict") "x.jpg").outcome = .ok ()
    ∧ (set_caption (some "T") ⟨none, none, none⟩ (.netError "unused")
        (.ok 409 "conflict") "x.jpg" "cap").outcome
      = .error (.apiError 409 "conflict") :=
  ⟨(caption_write_delete_status_handling (some "T") ⟨none, none, none⟩
      (.netError "unused") "x.jpg" "cap" (by decide)).1 "conflict",
   (caption_write_delete_status_handling (some "T") ⟨none, none, none⟩
      (.netError "unused") "x.jpg" "cap" (by decide)).2.2.2.2.2.1 409 "conflict"
      (by decide)⟩

theorem credsSet_false_of_missing (c : Creds)
    (hc : truthyStr c.app_key = false ∨ truthyStr c.app_secret = false
        ∨ truthyStr c.refresh_token = false) : credsSet c = false := by
  rcases hc with h | h | h <;> simp [credsSet, h]

theorem ensureToken_noCreds (token : Option String) (c : Creds)
    (tr : TokenResult) (hnt : truthyStr token = false)
    (hnc : credsSet c = false) :
    ensureToken token c tr = ([], token, .error .credsNotSet) := by
  simp [ensureToken, hnt, hnc]

/-- Claim C7: when no token is cached and any one of app key, app
secret or refresh token is missing, each of the five remote operations
fails with the credential-configuration error and its call list is
empty: no HTTP request at all is issued. -/
theorem remote_ops_fail_fast_without_creds
    (token : Option String) (c : Creds)
    (hnt : truthyStr token = false)
    (hc : truthyStr c.app_key = false ∨ truthyStr c.app_secret = false
        ∨ truthyStr c.refresh_token = false) :
    ∀ (tr : TokenResult) (base_path identifier key caption : String)
      (script : List PageResult) (dresp : DownloadResult)
      (presp : PropsGetResult) (sresp1 sresp2 : SimpleResult),
      list_photos token c tr base_path script
          = ⟨[], token, .error .credsNotSet⟩
      ∧ get_photo token c tr dresp identifier base_path
          = ⟨[], token, .error .credsNotSet⟩
      ∧ get_caption token c tr presp key = ⟨[], token, .error .credsNotSet⟩
      ∧ set_caption token c tr sresp1 key caption
          = ⟨[], token, .error .credsNotSet⟩
      ∧ delete_caption token c tr sresp2 key
          = ⟨[], token, .error .credsNotSet⟩ := by
  intro tr base_path identifier key caption script dresp presp sresp1 sresp2
  have hE := ensureToken_noCreds token c tr hnt (credsSet_false_of_missing c hc)
  refine ⟨?_, ?_, ?_, ?_, ?_⟩
  · rw [list_photos, hE]
  · rw [get_photo, hE]
  · rw [get_caption, hE]
  · rw [set_caption, hE]
  · rw [delete_caption, hE]

/-- Witness for C7: no cached token and a missing app secret make each
operation fail before any HTTP call. -/
theorem remote_ops_fail_fast_without_creds_witness :
    list_photos none ⟨some "k", none, some "r"⟩ (.netError "unused") "" []
        = ⟨[], none, .error .credsNotSet⟩
    ∧ get_photo none ⟨some "k", none, some "r"⟩ (.netError "unused")
        (.ok 200 "" []) "a.jpg" "" = ⟨[], none, .error .credsNotSet⟩
    ∧ get_caption none ⟨some "k", none, some "r"⟩ (.netError "unused")
        (.ok 200 "" []) "a.jpg" = ⟨[], none, .error .credsNotSet⟩
    ∧ set_caption none ⟨some "k", none, some "r"⟩ (.netError "unused")
        (.ok 200 "") "a.jpg" "cap" = ⟨[], none, .error .credsNotSet⟩
    ∧ delete_caption none ⟨some "k", none, some "r"⟩ (.netError "unused")
        (.ok 200 "") "a.jpg" = ⟨[], none, .error .credsNotSet⟩ :=
  remote_ops_fail_fast_without_creds none ⟨some "k", none, some "r"⟩
    (by decide) (Or.inr (Or.inl (by decide))) (.netError "unused") "" "a.jpg"
    "a.jpg" "cap" [] (.ok 200 "" []) (.ok 200 "" []) (.ok 200 "") (.ok 200 "")

/-- Claim C9: get_photo re-roots the identifier under the fixed /photos/
folder independently of the configured listing root (the first conjunct
states full independence from the base path), returns the exact payload
bytes uninterpreted on success, fails with an error carrying status and
body on non-success, and wraps a transport failure. -/
theorem get_photo_fixed_prefix_and_bytes :
    (∀ token c tr resp identifier b b',
        get_photo token c tr resp identifier b
          = get_photo token c tr resp identifier b')
    ∧ (∀ (token : Option String) c tr (identifier b body : String) content,
        truthyStr token = true →
        get_photo token c tr (.ok 200 body content) identifier b
          = ⟨[HttpCall.download ("/photos/" ++ identifier)], token,
              .ok content⟩)
    ∧ (∀ (token : Option String) c tr (identifier b : String) status body
        content, truthyStr token = true → status ≠ 200 →
        (get_photo token c tr (.ok status body content) identifier b).outcome
          = .error (.apiError status body))
    ∧ (∀ (token : Option String) c tr (identifier b msg : String),
        truthyStr token = true →
        (get_photo token c tr (.netError msg) identifier b).outcome
          = .error (.requestFailed msg)) := by
  refine ⟨fun _ _ _ _ _ _ _ => rfl, ?_, ?_, ?_⟩
  · intro token c tr identifier b body content h
    rw [get_photo, ensureToken_cached token c tr h]; rfl
  · intro token c tr identifier b status body content h h1
    rw [get_photo, ensureToken_cached token c tr h]
    simp [h1, SUCCESS_CODE]
  · intro token c tr identifier b msg h
    rw [get_photo, ensureToken_cached token c tr h]

/-- Witness for C9: a successful download returns the exact bytes under
the fixed /photos/ path even though the configured root differs. -/
theorem get_photo_fixed_prefix_and_bytes_witness :
    get_photo (some "T") ⟨none, none, none⟩ (.netError "unused")
        (.ok 200 "" [104, 105]) "a.jpg" "/other/root"
      = ⟨[HttpCall.download "/photos/a.jpg"], some "T", .ok [104, 105]⟩ :=
  get_photo_fixed_prefix_and_bytes.2.1 (some "T") ⟨none, none, none⟩
    (.netError "unused") "a.jpg" "/other/root" "" [104, 105] (by decide)

/-- Claim C10: when the configured base directory does not exist,
FileSystemStorage.list_photos returns the empty list rather than
raising; when it exists, the returned names are exactly the names of
its regular-file direct children, so subdirectories and other
non-regular entries never appear. -/
theorem filesystem_list_photos_missing_and_files :
    FileSystemStorage.list_photos none = []
    ∧ ∀ (es : List DirEntry) (s : String),
        s ∈ FileSystemStorage.list_photos (some es)
          ↔ ∃ e, e ∈ es ∧ e.isFile = true ∧ e.name = s := by
  refine ⟨rfl, ?_⟩
  intro es s
  simp only [FileSystemStorage.list_photos, List.mem_map, List.mem_filter]
  constructor
  · rintro ⟨e, ⟨he, hf⟩, hn⟩; exact ⟨e, he, hf, hn⟩
  · rintro ⟨e, he, hf, hn⟩; exact ⟨e, ⟨he, hf⟩, hn⟩

/-- Recognizes the token-exchange call among the recorded HTTP calls. -/
def isOauthCall : HttpCall → Bool
  | .oauthToken => true
  | _ => false

/-- Number of token-refresh attempts in a call log. -/
def countOauth (log : List HttpCall) : Nat := log.countP isOauthCall

/-- One operation of a trace on a single backend instance, together
with the provider responses answering it. -/
inductive OpCall
  | list (tr : TokenResult) (base_path : String) (script : List PageResult)
  | photo (tr : TokenResult) (resp : DownloadResult)
      (identifier : String) (base_path : String)
  | getCap (tr : TokenResult) (resp : PropsGetResult) (key : String)
  | setCap (tr : TokenResult) (resp : SimpleResult) (key : String)
      (caption : String)
  | delCap (tr : TokenResult) (resp : SimpleResult) (key : String)

/-- Runs one operation of a trace: the HTTP calls it made, the token
field afterwards and whether it returned normally. -/
def runOp (c : Creds) (token : Option String) :
    OpCall → List HttpCall × Option String × Bool
  | .list tr bp script =>
    let r := list_photos token c tr bp script
    (r.calls, r.token, r.outcome.isOk)
  | .photo tr resp id bp =>
    let r := get_photo token c tr resp id bp
    (r.calls, r.token, r.outcome.isOk)
  | .getCap tr resp key =>
    let r := get_caption token c tr resp key
    (r.calls, r.token, r.outcome.isOk)
  | .setCap tr resp key caption =>
    let r := set_caption token c tr resp key caption
    (r.calls, r.token, r.outcome.isOk)
  | .delCap tr resp key =>
    let r := delete_caption token c tr resp key
    (r.calls, r.token, r.outcome.isOk)

/-- Runs a sequence of operations on one backend instance, threading
the token field exactly as the instance attribute is threaded: the
combined HTTP call log, the final token and per-operation success. -/
def runOps (c : Creds) (token : Option String) :
    List OpCall → List HttpCall × Option String × List Bool
  | [] => ([], token, [])
  | op :: ops =>
    let r := runOp c token op
    let rest := runOps c r.2.1 ops
    (r.1 ++ rest.1, rest.2.1, r.2.2 :: rest.2.2)

theorem countOauth_nil : countOauth [] = 0 := rfl

theorem countOauth_append (l₁ l₂ : List HttpCall) :
    countOauth (l₁ ++ l₂) = countOauth l₁ + countOauth l₂ :=
  List.countP_append _ _ _

theorem ensureToken_count (token : Option String) (c : Creds)
    (tr : TokenResult) : countOauth (ensureToken token c tr).1 ≤ 1 := by
  unfold ensureToken
  split
  · simp [countOauth]
  · split
    · simp [countOauth, List.countP_cons, isOauthCall]
    · simp [countOauth]

theorem ensureToken_ok_token (token : Option String) (c : Creds)
    (tr : TokenResult) (h : (ensureToken token c tr).2.2 = .ok ()) :
    truthyStr (ensureToken token c tr).2.1 = true := by
  cases ht : truthyStr token with
  | true => simp [ensureToken, ht]
  | false =>
    cases hc : credsSet c with
    | false => simp [ensureToken, ht, hc] at h
    | true =>
      cases tr with
      | netError msg => simp [ensureToken, _refresh_token, ht, hc] at h
      | ok status body tok =>
        by_cases hs : status = SUCCESS_CODE
        · cases htk : truthyStr tok with
          | true => simp [ensureToken, _refresh_token, ht, hc, hs, htk]
          | false => simp [ensureToken, _refresh_token, ht, hc, hs, htk] at h
        · simp [ensureToken, _refresh_token, ht, hc, hs] at h

theorem countOauth_cons (x : HttpCall) (l : List HttpCall) :
    countOauth (x :: l) = countOauth l + if isOauthCall x then 1 else 0 :=
  List.countP_cons _ _ _

theorem listLoop_no_oauth (script : List PageResult) (page : ListFolderPage)
    (images : List String) : countOauth (listLoop script page images).1 = 0 := by
  induction script generalizing page images with
  | nil =>
    rw [listLoop.eq_def]
    split
    · simp [countOauth_cons, countOauth_nil, isOauthCall]
    · exact countOauth_nil
  | cons hd rest ih =>
    rw [listLoop.eq_def]
    cases hm : page.has_more with
    | false => simp [countOauth_nil]
    | true =>
      simp only [if_true]
      cases hd with
      | netError msg => simp [countOauth_cons, countOauth_nil, isOauthCall]
      | ok status body pg =>
        by_cases hs : status = SUCCESS_CODE
        · simp [hs, countOauth_cons, isOauthCall, ih]
        · simp [hs, countOauth_cons, countOauth_nil, isOauthCall]

theorem list_photos_count (token : Option String) (c : Creds)
    (tr : TokenResult) (bp : String) (script : List PageResult) :
    countOauth (list_photos token c tr bp script).calls
      = countOauth (ensureToken token c tr).1 := by
  rcases hE : ensureToken token c tr with ⟨log, tok, out⟩
  rw [list_photos, hE]
  cases out with
  | error e => rfl
  | ok u =>
    cases u
    cases script with
    | nil => simp [countOauth_append, countOauth_cons, countOauth_nil, isOauthCall]
    | cons hd rest =>
      cases hd with
      | netError msg =>
        simp [countOauth_append, countOauth_cons, countOauth_nil, isOauthCall]
      | ok status body page =>
        by_cases hs : status = SUCCESS_CODE <;>
          simp [hs, countOauth_append, countOauth_cons, countOauth_nil,
            isOauthCall, listLoop_no_oauth]

theorem list_photos_token_eq (token : Option String) (c : Creds)
    (tr : TokenResult) (bp : String) (script : List PageResult) :
    (list_photos token c tr bp script).token
      = (ensureToken token c tr).2.1 := by
  rcases hE : ensureToken token c tr with ⟨log, tok, out⟩
  rw [list_photos, hE]
  cases out with
  | error e => rfl
  | ok u =>
    cases u
    cases script with
    | nil => rfl
    | cons hd rest =>
      cases hd with
      | netError msg => rfl
      | ok status body page => by_cases hs : status = SUCCESS_CODE <;> simp [hs]

theorem list_photos_ok_imp (token : Option String) (c : Creds)
    (tr : TokenResult) (bp : String) (script : List PageResult)
    (h : (list_photos token c tr bp script).outcome.isOk = true) :
    (ensureToken token c tr).2.2 = .ok () := by
  rcases hE : ensureToken token c tr with ⟨log, tok, out⟩
  cases out with
  | error e => rw [list_photos, hE] at h; simp [Except.isOk, Except.toBool] at h
  | ok u => cases u; rfl

theorem get_photo_count (token : Option String) (c : Creds)
    (tr : TokenResult) (resp : DownloadResult) (id bp : String) :
    countOauth (get_photo token c tr resp id bp).calls
      = countOauth (ensureToken token c tr).1 := by
  rcases hE : ensureToken token c tr with ⟨log, tok, out⟩
  rw [get_photo, hE]
  cases out with
  | error e => rfl
  | ok u =>
    cases u
    cases resp with
    | netError msg =>
      simp [countOauth_append, countOauth_cons, countOauth_nil, isOauthCall]
    | ok status body content =>
      by_cases hs : status = SUCCESS_CODE <;>
        simp [hs, countOauth_append, countOauth_cons, countOauth_nil, isOauthCall]

theorem get_photo_token_eq (token : Option String) (c : Creds)
    (tr : TokenResult) (resp : DownloadResult) (id bp : String) :
    (get_photo token c tr resp id bp).token = (ensureToken token c tr).2.1 := by
  rcases hE : ensureToken token c tr with ⟨log, tok, out⟩
  rw [get_photo, hE]
  cases out with
  | error e => rfl
  | ok u =>
    cases u
    cases resp with
    | netError msg => rfl
    | ok status body content => by_cases hs : status = SUCCESS_CODE <;> simp [hs]

theorem get_photo_ok_imp (token : Option String) (c : Creds)
    (tr : TokenResult) (resp : DownloadResult) (id bp : String)
    (h : (get_photo token c tr resp id bp).outcome.isOk = true) :
    (ensureToken token c tr).2.2 = .ok () := by
  rcases hE : ensureToken token c tr with ⟨log, tok, out⟩
  cases out with
  | error e => rw [get_photo, hE] at h; simp [Except.isOk, Except.toBool] at h
  | ok u => cases u; rfl

theorem get_caption_count (token : Option String) (c : Creds)
    (tr : TokenResult) (resp : PropsGetResult) (key : String) :
    countOauth (get_caption token c tr resp key).calls
      = countOauth (ensureToken token c tr).1 := by
  rcases hE : ensureToken token c tr with ⟨log, tok, out⟩
  rw [get_caption, hE]
  cases out with
  | error e => rfl
  | ok u =>
    cases u
    cases resp with
    | netError msg =>
      simp [countOauth_append, countOauth_cons, countOauth_nil, isOauthCall]
    | ok status body groups =>
      dsimp only
      split_ifs <;>
        simp [countOauth_append, countOauth_cons, countOauth_nil, isOauthCall]

theorem get_caption_token_eq (token : Option String) (c : Creds)
    (tr : TokenResult) (resp : PropsGetResult) (key : String) :
    (get_caption token c tr resp key).token = (ensureToken token c tr).2.1 := by
  rcases hE : ensureToken token c tr with ⟨log, tok, out⟩
  rw [get_caption, hE]
  cases out with
  | error e => rfl
  | ok u =>
    cases u
    cases resp with
    | netError msg => rfl
    | ok status body groups => dsimp only; split_ifs <;> rfl

theorem get_caption_ok_imp (token : Option String) (c : Creds)
    (tr : TokenResult) (resp : PropsGetResult) (key : String)
    (h : (get_caption token c tr resp key).outcome.isOk = true) :
    (ensureToken token c tr).2.2 = .ok () := by
  rcases hE : ensureToken token c tr with ⟨log, tok, out⟩
  cases out with
  | error e => rw [get_caption, hE] at h; simp [Except.isOk, Except.toBool] at h
  | ok u => cases u; rfl

theorem set_caption_count (token : Option String) (c : Creds)
    (tr : TokenResult) (resp : SimpleResult) (key caption : String) :
    countOauth (set_caption token c tr resp key caption).calls
      = countOauth (ensureToken token c tr).1 := by
  rcases hE : ensureToken token c tr with ⟨log, tok, out⟩
  rw [set_caption, hE]
  cases out with
  | error e => rfl
  | ok u =>
    cases u
    cases resp with
    | netError msg =>
      simp [countOauth_append, countOauth_cons, countOauth_nil, isOauthCall]
    | ok status body =>
      by_cases hs : status = SUCCESS_CODE <;>
        simp [hs, countOauth_append, countOauth_cons, countOauth_nil, isOauthCall]

theorem set_caption_token_eq (token : Option String) (c : Creds)
    (tr : TokenResult) (resp : SimpleResult) (key caption : String) :
    (set_caption token c tr resp key caption).token
      = (ensureToken token c tr).2.1 := by
  rcases hE : ensureToken token c tr with ⟨log, tok, out⟩
  rw [set_caption, hE]
  cases out with
  | error e => rfl
  | ok u =>
    cases u
    cases resp with
    | netError msg => rfl
    | ok status body => by_cases hs : status = SUCCESS_CODE <;> simp [hs]

theorem set_caption_ok_imp (token : Option String) (c : Creds)
    (tr : TokenResult) (resp : SimpleResult) (key caption : String)
    (h : (set_caption token c tr resp key caption).outcome.isOk = true) :
    (ensureToken token c tr).2.2 = .ok () := by
  rcases hE : ensureToken token c tr with ⟨log, tok, out⟩
  cases out with
  | error e => rw [set_caption, hE] at h; simp [Except.isOk, Except.toBool] at h
  | ok u => cases u; rfl

theorem delete_caption_count (token : Option String) (c : Creds)
    (tr : TokenResult) (resp : SimpleResult) (key : String) :
    countOauth (delete_caption token c tr resp key).calls
      = countOauth (ensureToken token c tr).1 := by
  rcases hE : ensureToken token c tr with ⟨log, tok, out⟩
  rw [delete_caption, hE]
  cases out with
  | error e => rfl
  | ok u =>
    cases u
    cases resp with
    | netError msg =>
      simp [countOauth_append, countOauth_cons, countOauth_nil, isOauthCall]
    | ok status body =>
      dsimp only
      split_ifs <;>
        simp [countOauth_append, countOauth_cons, countOauth_nil, isOauthCall]

theorem delete_caption_token_eq (token : Option String) (c : Creds)
    (tr : TokenResult) (resp : SimpleResult) (key : String) :
    (delete_caption token c tr resp key).token
      = (ensureToken token c tr).2.1 := by
  rcases hE : ensureToken token c tr with ⟨log, tok, out⟩
  rw [delete_caption, hE]
  cases out with
  | error e => rfl
  | ok u =>
    cases u
    cases resp with
    | netError msg => rfl
    | ok status body => dsimp only; split_ifs <;> rfl

theorem delete_caption_ok_imp (token : Option String) (c : Creds)
    (tr : TokenResult) (resp : SimpleResult) (key : String)
    (h : (delete_caption token c tr resp key).outcome.isOk = true) :
    (ensureToken token c tr).2.2 = .ok () := by
  rcases hE : ensureToken token c tr with ⟨log, tok, out⟩
  cases out with
  | error e => rw [delete_caption, hE] at h; simp [Except.isOk, Except.toBool] at h
  | ok u => cases u; rfl

theorem runOp_count (c : Creds) (token : Option String) (op : OpCall) :
    countOauth (runOp c token op).1 ≤ 1 := by
  cases op with
  | list tr bp script =>
    simpa [runOp, list_photos_count] using ensureToken_count token c tr
  | photo tr resp id bp =>
    simpa [runOp, get_photo_count] using ensureToken_count token c tr
  | getCap tr resp key =>
    simpa [runOp, get_caption_count] using ensureToken_count token c tr
  | setCap tr resp key caption =>
    simpa [runOp, set_caption_count] using ensureToken_count token c tr
  | delCap tr resp key =>
    simpa [runOp, delete_caption_count] using ensureToken_count token c tr

theorem runOp_cached (c : Creds) (token : Option String) (op : OpCall)
    (h : truthyStr token = true) :
    countOauth (runOp c token op).1 = 0 ∧ (runOp c token op).2.1 = token := by
  cases op with
  | list tr bp script =>
    simp [runOp, list_photos_count, list_photos_token_eq,
      ensureToken_cached token c tr h, countOauth_nil]
  | photo tr resp id bp =>
    simp [runOp, get_photo_count, get_photo_token_eq,
      ensureToken_cached token c tr h, countOauth_nil]
  | getCap tr resp key =>
    simp [runOp, get_caption_count, get_caption_token_eq,
      ensureToken_cached token c tr h, countOauth_nil]
  | setCap tr resp key caption =>
    simp [runOp, set_caption_count, set_caption_token_eq,
      ensureToken_cached token c tr h, countOauth_nil]
  | delCap tr resp key =>
    simp [runOp, delete_caption_count, delete_caption_token_eq,
      ensureToken_cached token c tr h, countOauth_nil]

theorem runOp_ok_token (c : Creds) (token : Option String) (op : OpCall)
    (h : (runOp c token op).2.2 = true) :
    truthyStr (runOp c token op).2.1 = true := by
  cases op with
  | list tr bp script =>
    simp only [runOp] at h ⊢
    rw [list_photos_token_eq]
    exact ensureToken_ok_token token c tr (list_photos_ok_imp token c tr bp script h)
  | photo tr resp id bp =>
    simp only [runOp] at h ⊢
    rw [get_photo_token_eq]
    exact ensureToken_ok_token token c tr (get_photo_ok_imp token c tr resp id bp h)
  | getCap tr resp key =>
    simp only [runOp] at h ⊢
    rw [get_caption_token_eq]
    exact ensureToken_ok_token token c tr (get_caption_ok_imp token c tr resp key h)
  | setCap tr resp key caption =>
    simp only [runOp] at h ⊢
    rw [set_caption_token_eq]
    exact ensureToken_ok_token token c tr
      (set_caption_ok_imp token c tr resp key caption h)
  | delCap tr resp key =>
    simp only [runOp] at h ⊢
    rw [delete_caption_token_eq]
    exact ensureToken_ok_token token c tr
      (delete_caption_ok_imp token c tr resp key h)

theorem runOps_cached (c : Creds) (token : Option String) (ops : List OpCall)
    (h : truthyStr token = true) : countOauth (runOps c token ops).1 = 0 := by
  induction ops generalizing token with
  | nil => exact countOauth_nil
  | cons op ops ih =>
    have h1 := runOp_cached c token op h
    simp only [runOps, countOauth_append, h1.1, Nat.zero_add]
    rw [h1.2]
    exact ih token h

/-- Claim C8 counterexample: with all three credentials set and no
cached token, a trace of two get_caption calls whose token-endpoint
responses both carry status 500 performs two token-refresh attempts
although no remote call has succeeded yet (both operations fail), so
refresh is not attempted at most once per instance before the first
successful remote call.  A failed refresh leaves no token cached, and
the next operation retries. -/
theorem refresh_reattempted_after_failed_refresh :
    countOauth (runOps ⟨some "k", some "s", some "r"⟩ none
        [OpCall.getCap (.ok 500 "server error" none) (.ok 200 "" []) "x.jpg",
         OpCall.getCap (.ok 500 "server error" none) (.ok 200 "" []) "x.jpg"]).1
      = 2
    ∧ (runOps ⟨some "k", some "s", some "r"⟩ none
        [OpCall.getCap (.ok 500 "server error" none) (.ok 200 "" []) "x.jpg",
         OpCall.getCap (.ok 500 "server error" none) (.ok 200 "" []) "x.jpg"]).2.2
      = [false, false] := by
  constructor <;> rfl

/-- Claim C8 as amended: refresh is attempted at most once per
operation; an operation that returns normally leaves a truthy cached
token; once a token is cached the operation reuses it unchanged and
attempts no refresh, and hence a whole trace of operations starting
from a cached token performs zero refresh attempts.  Only failed
refresh attempts can therefore repeat, and they repeat at most once
per operation, never after the first successful operation. -/
theorem refresh_not_reattempted_once_cached :
    (∀ (c : Creds) (token : Option String) (ops : List OpCall),
        truthyStr token = true → countOauth (runOps c token ops).1 = 0)
    ∧ (∀ (c : Creds) (token : Option String) (op : OpCall),
        countOauth (runOp c token op).1 ≤ 1)
    ∧ (∀ (c : Creds) (token : Option String) (op : OpCall),
        (runOp c token op).2.2 = true → truthyStr (runOp c token op).2.1 = true)
    ∧ (∀ (c : Creds) (token : Option String) (op : OpCall),
        truthyStr token = true → (runOp c token op).2.1 = token) :=
  ⟨fun c token ops h => runOps_cached c token ops h,
   fun c token op => runOp_count c token op,
   fun c token op h => runOp_ok_token c token op h,
   fun c token op h => (runOp_cached c token op h).2⟩

/-- Witness for the amended C8: a trace of two operations beginning
with a cached token makes zero refresh attempts. -/
theorem refresh_not_reattempted_once_cached_witness :
    countOauth (runOps ⟨some "k", some "s", some "r"⟩ (some "T")
        [OpCall.getCap (.netError "unused") (.ok 200 "" []) "x.jpg",
         OpCall.delCap (.netError "unused") (.ok 409 "conflict") "x.jpg"]).1
      = 0 :=
  refresh_not_reattempted_once_cached.1 ⟨some "k", some "s", some "r"⟩
    (some "T")
    [OpCall.getCap (.netError "unused") (.ok 200 "" []) "x.jpg",
     OpCall.delCap (.netError "unused") (.ok 409 "conflict") "x.jpg"]
    (by decide)

end Captioner
